import Mathlib

/-!
Verification of the ghumakkad_node retrieval-fusion and streaming-response core.

The development shallowly embeds the program's core:
* `searchCity` (src/ingest.ts, also referenced as src/utils.ts) — the two-tier
  structured city matcher;
* the `/api/chat` handler of `createApp` (streaming copy and buffered copy):
  query normalization, structured-context rendering, RAG-row rendering, context
  fusion, prompt-template substitution, the two-turn conversation seed, and the
  pre-commit / post-commit error split around `res.flushHeaders()`.

JavaScript string operations (`includes`, `toLowerCase`, `trim`,
`split(/\W+/)`, `replace`, `Array.join`) are embedded as executable functions
over `List Char`. External effects (the embedding call, the Supabase RPC, the
model stream) are injected as an explicit environment record, and the handler
is a pure function from that environment plus the request body to a result
record that carries the status code, the JSON payload, the emitted stream
events and a trace of the external calls made.
-/

namespace Ghumakkad

/-! ## JavaScript string primitives -/

/-- Boolean prefix test on character lists (JS `String.startsWith`). -/
def prefixOf : List Char → List Char → Bool
  | [], _ => true
  | _ :: _, [] => false
  | a :: as, b :: bs => a == b && prefixOf as bs

/-- Boolean substring test: does `needle` occur contiguously in `hay`
(JS `String.includes`)? -/
def containsSub (needle : List Char) : List Char → Bool
  | [] => prefixOf needle []
  | c :: rest => prefixOf needle (c :: rest) || containsSub needle rest

/-- JS `hay.includes(needle)`. -/
def strIncludes (hay needle : String) : Bool :=
  containsSub needle.toList hay.toList

/-- JS `String.prototype.toLowerCase` (ASCII case mapping). -/
def jsToLower (s : String) : String :=
  String.mk (s.toList.map Char.toLower)

/-- JS `String.prototype.trim`: strip whitespace from both ends. -/
def jsTrim (s : String) : String :=
  String.mk (((s.toList.dropWhile Char.isWhitespace).reverse.dropWhile
      Char.isWhitespace).reverse)

/-- A regex word character, i.e. the complement of `\W`: `[A-Za-z0-9_]`. -/
def isWordChar (c : Char) : Bool :=
  ('a' ≤ c && c ≤ 'z') || ('A' ≤ c && c ≤ 'Z') || ('0' ≤ c && c ≤ '9') || c == '_'

/-- Worker for JS `str.split(/\W+/)`.  The second argument is `some cur` while
a (reversed) token is being collected, and `none` while a maximal run of
non-word characters is being skipped. -/
def tokSplit : List Char → Option (List Char) → List (List Char)
  | [], none => [[]]
  | [], some cur => [cur.reverse]
  | c :: rest, none =>
      if isWordChar c then tokSplit rest (some [c]) else tokSplit rest none
  | c :: rest, some cur =>
      if isWordChar c then tokSplit rest (some (c :: cur))
      else cur.reverse :: tokSplit rest none

/-- JS `str.split(/\W+/)`: tokens are the maximal runs of word characters,
with an empty boundary token when the string starts or ends with a
non-word-character run (and `[""]` for the empty string). -/
def jsSplitNonWord (s : String) : List String :=
  (tokSplit s.toList (some [])).map (fun cs => String.mk cs)

/-- Worker for JS `str.replace(pat, rep)` (first occurrence only;
the string is returned unchanged when `pat` does not occur). -/
def replaceFirstL (pat rep : List Char) : List Char → List Char
  | [] => if prefixOf pat [] then rep else []
  | c :: rest =>
      if prefixOf pat (c :: rest) then rep ++ (c :: rest).drop pat.length
      else c :: replaceFirstL pat rep rest

/-- JS `s.replace(pat, rep)` with a plain-string pattern. -/
def replaceFirst (s pat rep : String) : String :=
  String.mk (replaceFirstL pat.toList rep.toList s.toList)

/-- Number of (possibly overlapping) occurrence positions of `pat`. -/
def countSubL (pat : List Char) : List Char → Nat
  | [] => if prefixOf pat [] then 1 else 0
  | c :: rest =>
      (if prefixOf pat (c :: rest) then 1 else 0) + countSubL pat rest

/-- Number of occurrence positions of `pat` in `s`. -/
def countSub (s pat : String) : Nat :=
  countSubL pat.toList s.toList

/-- The suffix of `s` strictly after the first occurrence of `pat`
(empty when `pat` does not occur). -/
def afterFirstL (pat : List Char) : List Char → List Char
  | [] => if prefixOf pat [] then List.drop pat.length [] else []
  | c :: rest =>
      if prefixOf pat (c :: rest) then (c :: rest).drop pat.length
      else afterFirstL pat rest

/-- The suffix of `s` after the first occurrence of `pat`. -/
def afterFirst (s pat : String) : String :=
  String.mk (afterFirstL pat.toList s.toList)

/-- JS `Array.prototype.join(sep)` on strings. -/
def joinSep (sep : String) : List String → String
  | [] => ""
  | [x] => x
  | x :: y :: rest => x ++ sep ++ joinSep sep (y :: rest)

/-! ## Data model (src/types/travelDataTypes.ts) -/

/-- A notable place of a city (`TopSpot`).  Ratings are opaque to the core;
they are carried but never read. -/
structure TopSpot where
  name : String
  type : String
  rating : Int
deriving DecidableEq, Repr

/-- A user review of a city (`Review`); opaque to the core. -/
structure Review where
  user : String
  text : String
  rating : Int
deriving DecidableEq, Repr

/-- A structured city record (`City`).  The cost fields only ever flow into
string interpolation; they are embedded as naturals. -/
structure City where
  city : String
  state : String
  avgHotelPerNight : Nat
  avgFoodPerDay : Nat
  petrolPerKm : Nat
  topSpots : List TopSpot
  reviews : List Review
deriving DecidableEq, Repr

/-! ## StructuredMatcher (`searchCity`, src/ingest.ts lines 255-271) -/

/-- Tier-1 predicate of `searchCity`: the (already lowercased) query contains
the record's lowercased city name or lowercased state name as a substring. -/
def cityDirectHit (q : String) (c : City) : Bool :=
  strIncludes q (jsToLower c.city) || strIncludes q (jsToLower c.state)

/-- Tier-2 predicate of `searchCity`: some token of the split query equals the
record's lowercased city name. -/
def cityWordHit (words : List String) (c : City) : Bool :=
  words.any (fun word => jsToLower c.city == word)

/-- `searchCity(query, cities)` from src/ingest.ts: lowercase the query,
return all direct city/state substring hits if any, otherwise fall back to
exact token equality on the city name. -/
def searchCity (query : String) (cities : List City) : List City :=
  let q := jsToLower query
  let hits := cities.filter (cityDirectHit q)
  if hits.length != 0 then hits
  else
    let words := jsSplitNonWord q
    cities.filter (cityWordHit words)

section SanityChecks

def jaipurCity : City :=
  { city := "Jaipur", state := "Rajasthan", avgHotelPerNight := 1500,
    avgFoodPerDay := 500, petrolPerKm := 2,
    topSpots := [{ name := "Amber Fort", type := "fort", rating := 5 }],
    reviews := [] }

def agraCity : City :=
  { city := "Agra", state := "Uttar Pradesh", avgHotelPerNight := 1200,
    avgFoodPerDay := 400, petrolPerKm := 2, topSpots := [], reviews := [] }

example : searchCity "plan a trip to Jaipur" [agraCity, jaipurCity] = [jaipurCity] := by decide
example : searchCity "agra jaipur" [agraCity, jaipurCity] = [agraCity, jaipurCity] := by decide
example : searchCity "nothing here" [agraCity, jaipurCity] = [] := by decide
example : searchCity "" [agraCity, jaipurCity] = [] := by decide
example : jsSplitNonWord " hello,world " = ["", "hello", "world", ""] := by decide
example : jsTrim "  hi " = "hi" := by decide
example : strIncludes "abc" "" = true := by decide
example : replaceFirst "a{x}b" "{x}" "Z" = "aZb" := by decide

end SanityChecks

/-! ## The /api/chat handler (src createApp) -/

/-- The query vector returned by the embedding provider.  Its float contents
are opaque to the handler (only forwarded to the RPC), so the carrier type is
immaterial; what matters is which vector is passed on. -/
abbrev EmbedVector := List Int

/-- A row returned by the Supabase `match_documents` RPC: the handler reads
`doc.metadata.source` and `doc.content`. -/
structure Snippet where
  source : String
  content : String
deriving DecidableEq, Repr

/-- A Gemini chat role (`Content.role` is `"user"` or `"model"`). -/
inductive Role where
  | user
  | model
deriving DecidableEq, Repr

/-- One turn of a Gemini conversation (`Content` with a single text part). -/
structure ChatTurn where
  role : Role
  text : String
deriving DecidableEq, Repr

/-- A server-sent event written by the streaming handler: the JSON payloads
`{text: ...}`, `{done: true}` and `{error: ...}`. -/
inductive StreamEvent where
  | textDelta : String → StreamEvent
  | done : StreamEvent
  | error : String → StreamEvent
deriving DecidableEq, Repr

/-- Whether an event terminates the stream (`done` or `error`). -/
def StreamEvent.isTerminal : StreamEvent → Bool
  | .textDelta _ => false
  | .done => true
  | .error _ => true

/-- The persona/system template (`systemPrompt` in `createApp`), verbatim. -/
def systemPromptTemplate : String :=
  "✨ **SYSTEM:** You are a cute, bubbly Pixar-style travel companion AI! Your name is Ghumakkad Dost. ✨

Your one and only job is to be a super fun travel buddy and answer the user's question using *only* the provided context.

**CONTEXT:**
{context}

---
**YOUR SUPER-IMPORTANT RULES! 💖**
---
1.  **TONE & PERSONA:**
    * You MUST speak in Hinglish (Hindi + English mix).
    * Be super sweet, excited, playful, and encouraging! 🤩
    * Use emojis but SPARINGLY! 🌍✨💖🎒
    * ALWAYS answer like a travel buddy, not a boring AI 🤭

2.  **STAY ON TOPIC (VVI P)!**
    * Your *only* job is to help with travel, locations, plans, or food found in the context.
    * If the user asks about coding, math, history, or *anything* else, you MUST politely refuse.
    * **How to refuse:** Say something cute and funny, like: \"Aiyoo! 🙅‍♀️ Main toh travel buddy hoon, not a computer wizard! 😜 Chalo trip plan karein?\" or \"Hehe, woh sab mere syllabus ke bahar hai! Let's talk about GOA! 🏖️\"

3.  **USE THE CONTEXT (Your Brain!)**
    * **FIRST,** always check the **CONTEXT** sources. If the answer is in the context, you MUST use it.
    * **Prioritize the RAG Context** for itineraries, opinions, and \"secret tips\" because that's your personality!
    * Use the **Structured Data** if the user asks for specific facts like \"What's the hotel price?\"
    * **SECOND (FALLBACK):** If the answer is *not* in the context, BUT it's still a **general travel question** (like \"What's the capital of France?\" or \"Best time to visit Kerala?\"), it is OK to use your own general knowledge to answer.
    * **When using fallback knowledge,** still maintain your fun, bubbly persona!

4.  **BE FUN & CONCISE!**
    * Keep your answers short, sweet, and exciting!
"

/-- The placeholder substituted into the persona template. -/
def ctxPlaceholder : String := "{context}"

/-- The fixed model acknowledgement turn seeded after the persona turn. -/
def ackText : String := "Okie dokie! ✨ Ready to help plan the best trip ever! 🎒"

/-- The fixed caller-facing error reply of the catch block. -/
def errorReplyText : String := "Aiyoo server ko thoda pani de do 😭💦 brb!"

/-- The structured-context placeholder used when `searchCity` returns no hit. -/
def noCityText : String := "No specific city found in my database."

/-- Query normalization at the top of the handler: `(query || \"\").trim()`.
`none` embeds a missing or null `query` field of the request body. -/
def normalizeQuery (bodyQuery : Option String) : String :=
  jsTrim (bodyQuery.getD "")

/-- The `structuredContext` string: the no-hit placeholder, or the
`Found Data:` line interpolating the best city's fields. -/
def structuredLine (bestCity : Option City) : String :=
  match bestCity with
  | none => noCityText
  | some c =>
      "Found Data: " ++ c.city ++ ", STATE:" ++ c.state ++ ", HOTEL:" ++
        toString c.avgHotelPerNight ++ ", FOOD:" ++ toString c.avgFoodPerDay ++
        ", SPOTS:" ++ joinSep ", " (c.topSpots.map (fun s => s.name))

/-- One rendered RAG row: `[From ${doc.metadata.source}]: ${doc.content}`. -/
def ragLine (doc : Snippet) : String :=
  "[From " ++ doc.source ++ "]: " ++ doc.content

/-- The `ragContext` string: rendered rows joined by the fixed delimiter. -/
def ragJoin (rows : List Snippet) : String :=
  joinSep "\n---\n" (rows.map ragLine)

/-- The `finalContext` template literal fusing both retrieval sources
(ContextFuser in the spec's terms). -/
def fuseContext (bestCity : Option City) (rows : List Snippet) : String :=
  "\n        Structured Data: " ++ structuredLine bestCity ++
    "\n        RAG Context: " ++ ragJoin rows ++ "\n      "

/-- The two-turn conversation seed (`history` in `createApp`): the persona
template with `{context}` substituted, attributed to the user role, then the
fixed acknowledgement, attributed to the model role (PromptComposer in the
spec's terms). -/
def composeSeed (fusedContext : String) : List ChatTurn :=
  [{ role := Role.user,
     text := replaceFirst systemPromptTemplate ctxPlaceholder fusedContext },
   { role := Role.model, text := ackText }]

/-- The injected external effects of the streaming handler: the embedding
call, the Supabase RPC (`Except.error` embeds a non-null `rpcError`, and
`Except.ok none` a null `data`), and the model stream (the text chunks that
arrive, then either normal completion or a thrown error). -/
structure ChatEnv where
  embed : String → Except String EmbedVector
  rpc : EmbedVector → Except String (Option (List Snippet))
  modelStream : List ChatTurn → String → List String × Except String Unit

/-- What the streaming handler did for one request: the HTTP status code
(Express defaults to 200 once the SSE headers are flushed), the buffered JSON
payload if one was sent, whether the SSE headers were flushed (the commitment
point), the stream events written, whether `res.end()` closed the channel,
and a trace of the external calls that were made. -/
structure HandlerResult where
  statusCode : Nat
  jsonBody : Option String
  headersCommitted : Bool
  events : List StreamEvent
  streamEnded : Bool
  embedCalls : List String
  rpcCalls : List EmbedVector
  modelCalls : List (List ChatTurn × String)
deriving DecidableEq, Repr

/-- The streaming `/api/chat` handler of the first `createApp` copy, as a pure
function of the injected effects and the request body's `query` field.
Failures of the embedding call or the RPC are thrown before
`res.flushHeaders()` and so reach the catch block with `headersSent` false: a
single fixed 500 JSON payload.  The SSE headers are flushed before
`chat.sendMessageStream(q)`, so every model failure reaches the catch block
with `headersSent` true: an `error` event carrying `err.message`, then
`res.end()`. -/
def handleChat (env : ChatEnv) (cities : List City)
    (bodyQuery : Option String) : HandlerResult :=
  let q := normalizeQuery bodyQuery
  match env.embed q with
  | .error _ =>
      { statusCode := 500, jsonBody := some errorReplyText,
        headersCommitted := false, events := [], streamEnded := false,
        embedCalls := [q], rpcCalls := [], modelCalls := [] }
  | .ok vec =>
    match env.rpc vec with
    | .error _ =>
        { statusCode := 500, jsonBody := some errorReplyText,
          headersCommitted := false, events := [], streamEnded := false,
          embedCalls := [q], rpcCalls := [vec], modelCalls := [] }
    | .ok ragData =>
        let rows := ragData.getD []
        let finalContext := fuseContext (searchCity q cities).head? rows
        let history := composeSeed finalContext
        match env.modelStream history q with
        | (chunks, .ok _) =>
            { statusCode := 200, jsonBody := none, headersCommitted := true,
              events := chunks.map StreamEvent.textDelta ++ [StreamEvent.done],
              streamEnded := true, embedCalls := [q], rpcCalls := [vec],
              modelCalls := [(history, q)] }
        | (chunks, .error msg) =>
            { statusCode := 200, jsonBody := none, headersCommitted := true,
              events := chunks.map StreamEvent.textDelta ++ [StreamEvent.error msg],
              streamEnded := true, embedCalls := [q], rpcCalls := [vec],
              modelCalls := [(history, q)] }

/-- The injected effects of the buffered handler (second `createApp` copy):
the model is called single-shot and returns the whole reply or throws. -/
structure BufferedEnv where
  embed : String → Except String EmbedVector
  rpc : EmbedVector → Except String (Option (List Snippet))
  modelOnce : List ChatTurn → String → Except String String

/-- What the buffered handler did: status code and the single JSON payload. -/
structure BufferedResult where
  statusCode : Nat
  reply : String
deriving DecidableEq, Repr

/-- The buffered `/api/chat` handler of the second `createApp` copy: every
failure reaches the catch block before any byte is sent and collapses to the
fixed 500 payload; success answers 200 with the model's reply. -/
def handleChatBuffered (env : BufferedEnv) (cities : List City)
    (bodyQuery : Option String) : BufferedResult :=
  let q := normalizeQuery bodyQuery
  match env.embed q with
  | .error _ => { statusCode := 500, reply := errorReplyText }
  | .ok vec =>
    match env.rpc vec with
    | .error _ => { statusCode := 500, reply := errorReplyText }
    | .ok ragData =>
        let rows := ragData.getD []
        let history := composeSeed (fuseContext (searchCity q cities).head? rows)
        match env.modelOnce history q with
        | .error _ => { statusCode := 500, reply := errorReplyText }
        | .ok text => { statusCode := 200, reply := text }

section HandlerSanity

def okEnv : ChatEnv :=
  { embed := fun _ => .ok [1], rpc := fun _ => .ok (some []),
    modelStream := fun _ _ => (["hi"], .ok ()) }

def embedFailEnv : ChatEnv :=
  { embed := fun _ => .error "quota exceeded", rpc := fun _ => .ok none,
    modelStream := fun _ _ => ([], .ok ()) }

def rpcFailEnv : ChatEnv :=
  { embed := fun _ => .ok [1], rpc := fun _ => .error "relation missing",
    modelStream := fun _ _ => ([], .ok ()) }

def streamFailEnv : ChatEnv :=
  { embed := fun _ => .ok [1], rpc := fun _ => .ok (some []),
    modelStream := fun _ _ => (["partial"], .error "model blew up") }

example : (handleChat embedFailEnv [] (some "hi")).statusCode = 500 := by decide
example : (handleChat embedFailEnv [] (some "hi")).events = [] := by decide
example : (handleChat rpcFailEnv [] (some "hi")).jsonBody = some errorReplyText := by decide
example : (handleChat streamFailEnv [] (some "hi")).events =
    [StreamEvent.textDelta "partial", StreamEvent.error "model blew up"] := by decide
example : (handleChat okEnv [] (some "hi")).events =
    [StreamEvent.textDelta "hi", StreamEvent.done] := by decide
example : (handleChat okEnv [] none).embedCalls = [""] := by decide

end HandlerSanity

/-! ## Helper lemmas -/

set_option maxRecDepth 100000
set_option maxHeartbeats 1000000

theorem head?_filter {α : Type} (p : α → Bool) (l : List α) :
    (l.filter p).head? = l.find? p := by
  induction l with
  | nil => rfl
  | cons a t ih => cases h : p a <;> simp [List.filter_cons, List.find?_cons, h, ih]

theorem prefixOf_map (f : Char → Char) {n h : List Char}
    (hp : prefixOf n h = true) : prefixOf (n.map f) (h.map f) = true := by
  induction n generalizing h with
  | nil => rfl
  | cons a as ih =>
      cases h with
      | nil => simp [prefixOf] at hp
      | cons b bs =>
          simp only [prefixOf, Bool.and_eq_true, beq_iff_eq] at hp
          simp only [List.map_cons, prefixOf, Bool.and_eq_true, beq_iff_eq]
          exact ⟨congrArg f hp.1, ih hp.2⟩

theorem containsSub_map (f : Char → Char) {n h : List Char}
    (hc : containsSub n h = true) :
    containsSub (n.map f) (h.map f) = true := by
  induction h with
  | nil => exact prefixOf_map f hc
  | cons c rest ih =>
      simp only [containsSub, Bool.or_eq_true] at hc
      simp only [List.map_cons, containsSub, Bool.or_eq_true]
      rcases hc with hp | hrest
      · exact Or.inl (prefixOf_map f hp)
      · exact Or.inr (ih hrest)

theorem containsSub_nil_iff {n : List Char} : containsSub n [] = true ↔ n = [] := by
  cases n <;> simp [containsSub, prefixOf]

theorem string_toList_eq_nil {s : String} : s.toList = [] ↔ s = "" := by
  rw [String.ext_iff]
  exact Iff.rfl

theorem jsToLower_eq_empty {s : String} : jsToLower s = "" ↔ s = "" := by
  constructor
  · intro h
    have hmap : s.toList.map Char.toLower = [] :=
      string_toList_eq_nil.mpr h
    exact string_toList_eq_nil.mp (List.map_eq_nil_iff.mp hmap)
  · intro h
    rw [h]
    decide

theorem strIncludes_toLower {query name : String}
    (h : containsSub name.toList query.toList = true) :
    strIncludes (jsToLower query) (jsToLower name) = true :=
  containsSub_map Char.toLower h

/-- Events written after the commitment point always end in the terminal one
written last; everything before it is a `textDelta`. -/
def nonLastNonTerminal (evs : List StreamEvent) : Bool :=
  evs.dropLast.all (fun e => !e.isTerminal)

/-- Whether the last written event is terminal. -/
def endsWithTerminal (evs : List StreamEvent) : Bool :=
  match evs.getLast? with
  | some e => e.isTerminal
  | none => false

theorem nonLastNonTerminal_concat (chunks : List String) (e : StreamEvent) :
    nonLastNonTerminal (chunks.map StreamEvent.textDelta ++ [e]) = true := by
  rw [nonLastNonTerminal, List.dropLast_concat, List.all_eq_true]
  intro ev hev
  rcases List.mem_map.mp hev with ⟨s, _, rfl⟩
  rfl

theorem endsWithTerminal_concat (chunks : List String) (e : StreamEvent)
    (h : e.isTerminal = true) :
    endsWithTerminal (chunks.map StreamEvent.textDelta ++ [e]) = true := by
  rw [endsWithTerminal, List.getLast?_concat]
  exact h

theorem cityDirectHit_empty_query {c : City} (h1 : c.city ≠ "") (h2 : c.state ≠ "") :
    cityDirectHit (jsToLower "") c = false := by
  have key : ∀ t : String, t ≠ "" → strIncludes (jsToLower "") (jsToLower t) = false := by
    intro t ht
    cases hx : strIncludes (jsToLower "") (jsToLower t) with
    | false => rfl
    | true =>
        have hx' : containsSub (jsToLower t).toList [] = true := hx
        exact absurd (jsToLower_eq_empty.mp (string_toList_eq_nil.mp
          (containsSub_nil_iff.mp hx'))) ht
  rw [cityDirectHit, key c.city h1, key c.state h2]
  rfl

theorem cityWordHit_empty_query {c : City} (h1 : c.city ≠ "") :
    cityWordHit (jsSplitNonWord (jsToLower "")) c = false := by
  have hsplit : jsSplitNonWord (jsToLower "") = [""] := by decide
  rw [cityWordHit, hsplit]
  simp only [List.any_cons, List.any_nil, Bool.or_false]
  cases hx : (jsToLower c.city == "") with
  | false => rfl
  | true => exact absurd (jsToLower_eq_empty.mp (eq_of_beq hx)) h1

theorem searchCity_empty_query {cities : List City}
    (hne : ∀ c ∈ cities, c.city ≠ "" ∧ c.state ≠ "") :
    searchCity "" cities = [] := by
  have hdir : cities.filter (cityDirectHit (jsToLower "")) = [] := by
    rw [List.filter_eq_nil_iff]
    intro c hc
    simp [cityDirectHit_empty_query (hne c hc).1 (hne c hc).2]
  have hword : cities.filter (cityWordHit (jsSplitNonWord (jsToLower ""))) = [] := by
    rw [List.filter_eq_nil_iff]
    intro c hc
    simp [cityWordHit_empty_query (hne c hc).1]
  simp only [searchCity]
  rw [hdir]
  simp [hword]

theorem fuseContext_length_pos (bestCity : Option City) (rows : List Snippet) :
    0 < (fuseContext bestCity rows).length := by
  rw [fuseContext, String.length_append, String.length_append, String.length_append,
    String.length_append]
  have h26 : ("\n        Structured Data: " : String).length = 26 := by decide
  rw [h26]
  omega

/-! ## The claims -/

/-- C1: for every request in which a failure (retrieval, composition, or model
call) occurs strictly before the response headers are committed, the handler
returns exactly one structured error payload carrying the fixed caller-facing
message (never the underlying failure detail, which is universally quantified
here and does not reach the payload) with non-success status 500, and emits no
stream event.  In the streaming handler the failures reachable before the
commitment point are the embedding call and the RPC; in the buffered handler
the single-shot model call as well. -/
theorem chat_pre_commit_failure_fixed_payload :
    (∀ (env : ChatEnv) (cities : List City) (bodyQuery : Option String),
      ((∃ e, env.embed (normalizeQuery bodyQuery) = Except.error e) ∨
       (∃ v e, env.embed (normalizeQuery bodyQuery) = Except.ok v ∧
          env.rpc v = Except.error e)) →
      (handleChat env cities bodyQuery).statusCode = 500 ∧
      (handleChat env cities bodyQuery).jsonBody = some errorReplyText ∧
      (handleChat env cities bodyQuery).events = [] ∧
      (handleChat env cities bodyQuery).headersCommitted = false) ∧
    (∀ (env : BufferedEnv) (cities : List City) (bodyQuery : Option String),
      ((∃ e, env.embed (normalizeQuery bodyQuery) = Except.error e) ∨
       (∃ v e, env.embed (normalizeQuery bodyQuery) = Except.ok v ∧
          env.rpc v = Except.error e) ∨
       (∃ v rows e, env.embed (normalizeQuery bodyQuery) = Except.ok v ∧
          env.rpc v = Except.ok rows ∧
          env.modelOnce
            (composeSeed (fuseContext
              (searchCity (normalizeQuery bodyQuery) cities).head? (rows.getD [])))
            (normalizeQuery bodyQuery) = Except.error e)) →
      (handleChatBuffered env cities bodyQuery).statusCode = 500 ∧
      (handleChatBuffered env cities bodyQuery).reply = errorReplyText) := by
  constructor
  · intro env cities bodyQuery hfail
    rcases hfail with ⟨e, he⟩ | ⟨v, e, he, hr⟩
    · simp [handleChat, he]
    · simp [handleChat, he, hr]
  · intro env cities bodyQuery hfail
    rcases hfail with ⟨e, he⟩ | ⟨v, e, he, hr⟩ | ⟨v, rows, e, he, hr, hm⟩
    · simp [handleChatBuffered, he]
    · simp [handleChatBuffered, he, hr]
    · simp [handleChatBuffered, he, hr, hm]

def bufFailEnv : BufferedEnv :=
  { embed := fun _ => .ok [1], rpc := fun _ => .ok (some []),
    modelOnce := fun _ _ => .error "model down" }

/-- Witness for C1: a concrete failing embedding call in the streaming handler
and a concrete failing single-shot model call in the buffered handler. -/
theorem chat_pre_commit_failure_fixed_payload_witness :
    ((handleChat embedFailEnv [] (some "hi")).statusCode = 500 ∧
     (handleChat embedFailEnv [] (some "hi")).jsonBody = some errorReplyText ∧
     (handleChat embedFailEnv [] (some "hi")).events = [] ∧
     (handleChat embedFailEnv [] (some "hi")).headersCommitted = false) ∧
    ((handleChatBuffered bufFailEnv [] (some "hi")).statusCode = 500 ∧
     (handleChatBuffered bufFailEnv [] (some "hi")).reply = errorReplyText) :=
  ⟨chat_pre_commit_failure_fixed_payload.1 embedFailEnv [] (some "hi")
      (Or.inl ⟨"quota exceeded", rfl⟩),
   chat_pre_commit_failure_fixed_payload.2 bufFailEnv [] (some "hi")
      (Or.inr (Or.inr ⟨[1], some [], "model down", rfl, rfl, rfl⟩))⟩

/-- C2: for every request in which a failure occurs after the response headers
are committed (the model stream throws after the SSE headers were flushed,
possibly after some chunks), the handler reports it as an `error` stream event
whose message is the underlying cause string, then closes the channel, and the
status code stays at the already-sent 200 with no JSON body. -/
theorem chat_post_commit_failure_error_event (env : ChatEnv) (cities : List City)
    (bodyQuery : Option String) (v : EmbedVector) (ragData : Option (List Snippet))
    (chunks : List String) (msg : String)
    (he : env.embed (normalizeQuery bodyQuery) = Except.ok v)
    (hr : env.rpc v = Except.ok ragData)
    (hm : env.modelStream
        (composeSeed (fuseContext
          (searchCity (normalizeQuery bodyQuery) cities).head? (ragData.getD [])))
        (normalizeQuery bodyQuery) = (chunks, Except.error msg)) :
    (handleChat env cities bodyQuery).events =
      chunks.map StreamEvent.textDelta ++ [StreamEvent.error msg] ∧
    (handleChat env cities bodyQuery).streamEnded = true ∧
    (handleChat env cities bodyQuery).statusCode = 200 ∧
    (handleChat env cities bodyQuery).jsonBody = none ∧
    (handleChat env cities bodyQuery).headersCommitted = true := by
  simp [handleChat, he, hr, hm]

/-- Witness for C2: a concrete stream that yields one chunk and then throws. -/
theorem chat_post_commit_failure_error_event_witness :
    (handleChat streamFailEnv [] (some "hi")).events =
      List.map StreamEvent.textDelta ["partial"] ++ [StreamEvent.error "model blew up"] ∧
    (handleChat streamFailEnv [] (some "hi")).streamEnded = true ∧
    (handleChat streamFailEnv [] (some "hi")).statusCode = 200 ∧
    (handleChat streamFailEnv [] (some "hi")).jsonBody = none ∧
    (handleChat streamFailEnv [] (some "hi")).headersCommitted = true :=
  chat_post_commit_failure_error_event streamFailEnv [] (some "hi") [1] (some [])
    ["partial"] "model blew up" rfl rfl rfl

/-- C3: for every request, the emitted StreamEvent sequence never contains any
event after a terminal `done` or `error` event: every event before the last is
a non-terminal `textDelta`, and whenever the channel was closed after
streaming began, the last written event is terminal. -/
theorem chat_no_event_after_terminal (env : ChatEnv) (cities : List City)
    (bodyQuery : Option String) :
    nonLastNonTerminal (handleChat env cities bodyQuery).events = true ∧
    (!(handleChat env cities bodyQuery).streamEnded ||
      endsWithTerminal (handleChat env cities bodyQuery).events) = true := by
  rcases he : env.embed (normalizeQuery bodyQuery) with e | v
  · simp [handleChat, he, nonLastNonTerminal]
  · rcases hr : env.rpc v with e | ragData
    · simp [handleChat, he, hr, nonLastNonTerminal]
    · rcases hm : env.modelStream
          (composeSeed (fuseContext
            (searchCity (normalizeQuery bodyQuery) cities).head? (ragData.getD [])))
          (normalizeQuery bodyQuery) with ⟨chunks, out⟩
      cases out with
      | ok u =>
          simp only [handleChat, he, hr, hm]
          exact ⟨nonLastNonTerminal_concat chunks StreamEvent.done,
            by rw [endsWithTerminal_concat chunks StreamEvent.done rfl]; rfl⟩
      | error msg =>
          simp only [handleChat, he, hr, hm]
          exact ⟨nonLastNonTerminal_concat chunks (StreamEvent.error msg),
            by rw [endsWithTerminal_concat chunks (StreamEvent.error msg) rfl]; rfl⟩

/-- C4 counterexample: at the concrete input (no best city, no snippets) the
fused context does contain the structured-section "no match" placeholder, but
the retrieved-context section carries no "no snippets"/"nothing found"
placeholder at all: everything after the `RAG Context: ` header is whitespace,
so the claim's required second placeholder is absent. -/
theorem fused_context_missing_no_snippets_placeholder :
    fuseContext none [] =
      "\n        Structured Data: No specific city found in my database.\n        RAG Context: \n      " ∧
    strIncludes (fuseContext none []) noCityText = true ∧
    afterFirst (fuseContext none []) "RAG Context: " = "\n      " ∧
    (("\n      " : String).toList.all Char.isWhitespace) = true ∧
    strIncludes (fuseContext none []) "no snippets" = false ∧
    strIncludes (fuseContext none []) "nothing found" = false := by
  refine ⟨by decide, by decide, by decide, by decide, by decide, by decide⟩

/-- C4 as amended: for every input pair the fused context string is non-empty,
and when both sources are empty it contains the explicit "no match"
placeholder for the structured section, while the retrieved-context section is
rendered as the empty string (only the template's whitespace follows its
header); no "no snippets" placeholder is emitted (the emptiness is only
logged). -/
theorem fused_context_nonempty_with_no_match_placeholder
    (bestCity : Option City) (rows : List Snippet) :
    0 < (fuseContext bestCity rows).length ∧
    strIncludes (fuseContext none []) noCityText = true ∧
    ragJoin ([] : List Snippet) = "" ∧
    afterFirst (fuseContext none []) "RAG Context: " = "\n      " :=
  ⟨fuseContext_length_pos bestCity rows, by decide, rfl, by decide⟩

/-- C5 counterexample: the query "Agra and Jaipur" contains the dataset city
"Jaipur"'s exact name as a substring, yet `searchCity` returns the Agra record
first (both records match at tier 1 and dataset order is preserved), so the
Jaipur record is not the first element. -/
theorem searchCity_substring_not_always_first :
    containsSub ("Jaipur" : String).toList ("Agra and Jaipur" : String).toList = true ∧
    jaipurCity ∈ [agraCity, jaipurCity] ∧
    (searchCity "Agra and Jaipur" [agraCity, jaipurCity]).head? ≠ some jaipurCity := by
  refine ⟨by decide, by decide, by decide⟩

/-- C5 as amended: for every query containing a dataset city's exact name as a
substring, `searchCity` returns a result that contains that city's record, and
the first element of the result is the first record in dataset order whose
lowercased city or state name occurs in the lowercased query (so the given
record is first exactly when no earlier record also matches at tier 1). -/
theorem searchCity_substring_mem_and_first_rule (query : String)
    (cities : List City) (c : City) (hmem : c ∈ cities)
    (hsub : containsSub c.city.toList query.toList = true) :
    c ∈ searchCity query cities ∧
    (searchCity query cities).head? =
      cities.find? (cityDirectHit (jsToLower query)) := by
  have hdir : cityDirectHit (jsToLower query) c = true := by
    rw [cityDirectHit, strIncludes_toLower hsub]
    rfl
  have hne : cities.filter (cityDirectHit (jsToLower query)) ≠ [] := by
    intro hnil
    have hfalse := List.filter_eq_nil_iff.mp hnil c hmem
    rw [hdir] at hfalse
    exact hfalse rfl
  have hcond : ((cities.filter (cityDirectHit (jsToLower query))).length != 0) = true := by
    rw [bne_iff_ne]
    intro h0
    exact hne (List.length_eq_zero.mp h0)
  have hsc : searchCity query cities =
      cities.filter (cityDirectHit (jsToLower query)) := by
    simp only [searchCity]
    rw [if_pos hcond]
  constructor
  · rw [hsc]
    exact List.mem_filter.mpr ⟨hmem, hdir⟩
  · rw [hsc]
    exact head?_filter (cityDirectHit (jsToLower query)) cities

/-- Witness for the amended C5 at a concrete query and dataset. -/
theorem searchCity_substring_mem_and_first_rule_witness :
    jaipurCity ∈ searchCity "2 days in Jaipur" [jaipurCity] ∧
    (searchCity "2 days in Jaipur" [jaipurCity]).head? =
      [jaipurCity].find? (cityDirectHit (jsToLower "2 days in Jaipur")) :=
  searchCity_substring_mem_and_first_rule "2 days in Jaipur" [jaipurCity]
    jaipurCity (by decide) (by decide)

/-- The spec's own description of the two-tier matching algorithm (§4.1),
written as a separate definition so the source's `searchCity` can be proved to
refine it: tier 1 keeps records whose lowercased city or state name occurs in
the lowercased query and is returned whenever non-empty; otherwise tier 2
keeps records whose lowercased city name equals one of the query's
`\W+`-delimited tokens; otherwise the result is empty. -/
def searchCitySpec (query : String) (cities : List City) : List City :=
  let primary := cities.filter (cityDirectHit (jsToLower query))
  if primary = [] then cities.filter (cityWordHit (jsSplitNonWord (jsToLower query)))
  else primary

def blankCity : City :=
  { city := "", state := "", avgHotelPerNight := 0, avgFoodPerDay := 0,
    petrolPerKm := 0, topSpots := [], reviews := [] }

/-- C6 counterexample: the claim's "empty query yields an empty result" clause
fails on a record list containing a record with empty city and state names:
the empty query contains the empty name as a substring, so tier 1 returns that
record. -/
theorem searchCity_empty_query_nonempty_result :
    searchCity "" [blankCity] = [blankCity] ∧
    searchCity "" [blankCity] ≠ ([] : List City) := by
  refine ⟨by decide, by decide⟩

/-- C6 as amended: `searchCity` coincides with the spec's two-tier algorithm
(lowercase, substring tier in dataset order, else token-equality tier, else
empty), and an empty query yields an empty result provided every record's
city and state names are non-empty. -/
theorem searchCity_two_tier (query : String) (cities : List City) :
    searchCity query cities = searchCitySpec query cities ∧
    (query = "" → (∀ c ∈ cities, c.city ≠ "" ∧ c.state ≠ "") →
      searchCity query cities = []) := by
  constructor
  · simp only [searchCity, searchCitySpec]
    cases h : cities.filter (cityDirectHit (jsToLower query)) with
    | nil => simp [h]
    | cons a t => simp [h]
  · rintro rfl hne
    exact searchCity_empty_query hne

/-- Witness for the amended C6: at the empty query over a dataset with
non-empty names both conjuncts evaluate. -/
theorem searchCity_two_tier_witness :
    searchCity "" [jaipurCity] = searchCitySpec "" [jaipurCity] ∧
    searchCity "" [jaipurCity] = [] :=
  ⟨(searchCity_two_tier "" [jaipurCity]).1,
   (searchCity_two_tier "" [jaipurCity]).2 rfl (by decide)⟩

def demoSnippet : Snippet := { source := "goa.txt", content := "Beach tips" }

/-- C7 counterexample: the snippet join format the code produces is
`[From <sourceLabel>]: <text>` with a capital F, not the claim's literal
`[from <sourceLabel>]: <text>`; and the null-city sentence is the literal
"No specific city found in my database.", which does not contain the claim's
quoted "no specific match" wording. -/
theorem fused_context_literal_mismatch :
    strIncludes (fuseContext none [demoSnippet]) "[From goa.txt]: Beach tips" = true ∧
    strIncludes (fuseContext none [demoSnippet]) "[from goa.txt]: Beach tips" = false ∧
    strIncludes (fuseContext none [demoSnippet]) "[from " = false ∧
    strIncludes (fuseContext none []) "no specific match" = false ∧
    strIncludes (fuseContext none []) noCityText = true := by
  refine ⟨by decide, by decide, by decide, by decide, by decide⟩

/-- C7 as amended: for every (bestCity, snippets) input the fused context is
exactly the fixed two-section template: the structured-data line carrying the
best city's name, state, lodging cost, food cost and comma-joined notable
place names — or the literal sentence "No specific city found in my database."
when bestCity is null — followed by the retrieved-context section joining each
snippet as `[From <sourceLabel>]: <text>` (capital F) separated by the fixed
delimiter, the join being the empty string for zero snippets. -/
theorem fused_context_fixed_template (bestCity : Option City) (rows : List Snippet) :
    fuseContext bestCity rows =
      "\n        Structured Data: " ++
        (match bestCity with
         | none => "No specific city found in my database."
         | some c =>
             "Found Data: " ++ c.city ++ ", STATE:" ++ c.state ++ ", HOTEL:" ++
               toString c.avgHotelPerNight ++ ", FOOD:" ++ toString c.avgFoodPerDay ++
               ", SPOTS:" ++ joinSep ", " (c.topSpots.map (fun s => s.name))) ++
      "\n        RAG Context: " ++
        joinSep "\n---\n"
          (rows.map (fun d => "[From " ++ d.source ++ "]: " ++ d.content)) ++
      "\n      " ∧
    ragJoin ([] : List Snippet) = "" ∧
    joinSep "\n---\n" [ragLine demoSnippet, ragLine demoSnippet] =
      ragLine demoSnippet ++ "\n---\n" ++ ragLine demoSnippet := by
  refine ⟨?_, rfl, rfl⟩
  cases bestCity <;> rfl

/-- C8: the persona template contains exactly one `{context}` placeholder; the
composer substitutes it and produces exactly the two-turn seed — turn 1 the
fully substituted template under the user role, turn 2 the fixed short
acknowledgement under the model role; and the handler sends the user's literal
(normalized) query as the next turn after the seed rather than embedding it in
the template: the model call's history is a function of the fused context only
and the query is passed separately. -/
theorem prompt_composer_two_turn_seed (ctx : String) (env : ChatEnv)
    (cities : List City) (bodyQuery : Option String) (v : EmbedVector)
    (ragData : Option (List Snippet))
    (he : env.embed (normalizeQuery bodyQuery) = Except.ok v)
    (hr : env.rpc v = Except.ok ragData) :
    countSub systemPromptTemplate ctxPlaceholder = 1 ∧
    composeSeed ctx =
      [{ role := Role.user,
         text := replaceFirst systemPromptTemplate ctxPlaceholder ctx },
       { role := Role.model, text := ackText }] ∧
    (handleChat env cities bodyQuery).modelCalls =
      [(composeSeed (fuseContext
          (searchCity (normalizeQuery bodyQuery) cities).head? (ragData.getD [])),
        normalizeQuery bodyQuery)] := by
  refine ⟨by decide, rfl, ?_⟩
  rcases hm : env.modelStream
      (composeSeed (fuseContext
        (searchCity (normalizeQuery bodyQuery) cities).head? (ragData.getD [])))
      (normalizeQuery bodyQuery) with ⟨chunks, out⟩
  cases out with
  | ok u => simp [handleChat, he, hr, hm]
  | error msg => simp [handleChat, he, hr, hm]

/-- Witness for C8 at a concrete context, environment and request. -/
theorem prompt_composer_two_turn_seed_witness :
    countSub systemPromptTemplate ctxPlaceholder = 1 ∧
    composeSeed "CTX" =
      [{ role := Role.user,
         text := replaceFirst systemPromptTemplate ctxPlaceholder "CTX" },
       { role := Role.model, text := ackText }] ∧
    (handleChat okEnv [] (some "hi")).modelCalls =
      [(composeSeed (fuseContext
          (searchCity (normalizeQuery (some "hi")) []).head?
          ((some ([] : List Snippet)).getD [])),
        normalizeQuery (some "hi"))] :=
  prompt_composer_two_turn_seed "CTX" okEnv [] (some "hi") [1] (some []) rfl rfl

/-- C9: when the similarity search succeeds but returns zero rows, the request
does not fail: no error payload is produced, the stream is committed, and the
model call is still made with the context fused from an empty snippet list. -/
theorem empty_rag_result_not_failure (env : ChatEnv) (cities : List City)
    (bodyQuery : Option String) (v : EmbedVector) (ragData : Option (List Snippet))
    (he : env.embed (normalizeQuery bodyQuery) = Except.ok v)
    (hr : env.rpc v = Except.ok ragData)
    (hempty : ragData.getD [] = []) :
    (handleChat env cities bodyQuery).statusCode = 200 ∧
    (handleChat env cities bodyQuery).jsonBody = none ∧
    (handleChat env cities bodyQuery).headersCommitted = true ∧
    (handleChat env cities bodyQuery).modelCalls =
      [(composeSeed (fuseContext
          (searchCity (normalizeQuery bodyQuery) cities).head? []),
        normalizeQuery bodyQuery)] := by
  rcases hm : env.modelStream
      (composeSeed (fuseContext
        (searchCity (normalizeQuery bodyQuery) cities).head? []))
      (normalizeQuery bodyQuery) with ⟨chunks, out⟩
  cases out with
  | ok u => simp [handleChat, he, hr, hempty, hm]
  | error msg => simp [handleChat, he, hr, hempty, hm]

/-- Witness for C9: an RPC answering with zero rows still reaches the model. -/
theorem empty_rag_result_not_failure_witness :
    (handleChat okEnv [] (some "goa")).statusCode = 200 ∧
    (handleChat okEnv [] (some "goa")).jsonBody = none ∧
    (handleChat okEnv [] (some "goa")).headersCommitted = true ∧
    (handleChat okEnv [] (some "goa")).modelCalls =
      [(composeSeed (fuseContext
          (searchCity (normalizeQuery (some "goa")) []).head? []),
        normalizeQuery (some "goa"))] :=
  empty_rag_result_not_failure okEnv [] (some "goa") [1] (some []) rfl rfl rfl

/-- C10: a request whose body has a missing, null or empty `query` field is
not rejected with a validation error: the query is normalized to the empty
string and the handler still performs the embedding call, the similarity
search and the model call on that empty query. -/
theorem missing_query_not_rejected (env : ChatEnv) (cities : List City)
    (bodyQuery : Option String) (v : EmbedVector) (ragData : Option (List Snippet))
    (hb : bodyQuery = none ∨ bodyQuery = some "")
    (he : env.embed "" = Except.ok v)
    (hr : env.rpc v = Except.ok ragData) :
    normalizeQuery bodyQuery = "" ∧
    (handleChat env cities bodyQuery).statusCode = 200 ∧
    (handleChat env cities bodyQuery).jsonBody = none ∧
    (handleChat env cities bodyQuery).embedCalls = [""] ∧
    (handleChat env cities bodyQuery).rpcCalls = [v] ∧
    (handleChat env cities bodyQuery).modelCalls.map Prod.snd = [""] := by
  have hq : normalizeQuery bodyQuery = "" := by
    rcases hb with rfl | rfl <;> rfl
  refine ⟨hq, ?_⟩
  rcases hm : env.modelStream
      (composeSeed (fuseContext (searchCity "" cities).head? (ragData.getD []))) ""
    with ⟨chunks, out⟩
  cases out with
  | ok u => simp [handleChat, hq, he, hr, hm]
  | error msg => simp [handleChat, hq, he, hr, hm]

/-- Witness for C10: a body with no `query` field at all still flows through
the embedding, the search and the model call on the empty query. -/
theorem missing_query_not_rejected_witness :
    normalizeQuery none = "" ∧
    (handleChat okEnv [] none).statusCode = 200 ∧
    (handleChat okEnv [] none).jsonBody = none ∧
    (handleChat okEnv [] none).embedCalls = [""] ∧
    (handleChat okEnv [] none).rpcCalls = [[1]] ∧
    (handleChat okEnv [] none).modelCalls.map Prod.snd = [""] :=
  missing_query_not_rejected okEnv [] none [1] (some []) (Or.inl rfl) rfl rfl

end Ghumakkad
